import Mathlib

/-!
Verification development for the Tarkov-Item-Helper marker pipeline.

The definitions below are a shallow embedding of the Python sources
`scripts/sync_markers_to_sqlite.py` and `scripts/verify_marker_positions.py`:

* `TarkovMarketDecoder.decode` (both files, identical code) becomes `decode`,
  built from executable embeddings of `base64.b64decode`, `bytes.decode("utf-8")`
  and `urllib.parse.unquote`.
* `MarkerSyncService.sync_markers` becomes `sync_markers`, acting on an explicit
  `Store` state that models the SQLite `markers` and `marker_images` tables,
  with `INSERT OR REPLACE` given its SQLite semantics (the conflicting row is
  deleted and a fresh row is inserted, so columns absent from the column list
  take their schema defaults).
* `MarkerVerifier.compare_positions` becomes `compare_positions`, and the report
  aggregation of `_generate_json_report` / `_generate_html_report` becomes the
  count and detail-list functions further down.

Machine floats are modelled by exact rationals.  The Python code computes
Euclidean distances with `sqrt`; every use of such a distance is a comparison,
so the embedding tracks the squared distance (`dist2`, field `distance_sq`) and
renders each comparison `sqrt s <= t` by the exact equivalent
`0 <= t AND s <= t^2` (`sqrtLe`), and `sqrt s < sqrt s'` by `s < s'`.
-/

/-! ### Payload decoder (`TarkovMarketDecoder.decode`)

Python source, identical in both scripts:

```
processed = encoded[:5] + encoded[10:]
decoded_bytes = base64.b64decode(processed)
url_encoded = decoded_bytes.decode('utf-8')
json_str = urllib.parse.unquote(url_encoded)
return json_str
```

wrapped in `try: ... except Exception: return None`.
-/

/-- Value of a character in the standard base64 alphabet, `none` outside it. -/
def b64val (c : Char) : Option Nat :=
  if 'A' ≤ c ∧ c ≤ 'Z' then some (c.toNat - 65)
  else if 'a' ≤ c ∧ c ≤ 'z' then some (c.toNat - 97 + 26)
  else if '0' ≤ c ∧ c ≤ '9' then some (c.toNat - 48 + 52)
  else if c = '+' then some 62
  else if c = '/' then some 63
  else none

/-- The quad-position state machine of `binascii.a2b_base64` in its default
non-strict mode.  `quadPos` counts the valid data characters seen in the
current group of four, `leftchar` holds their pending bits, and `pads` counts
the padding characters seen at quad position 2 or later.  A `=` at quad
position 0 or 1 is skipped; at quad position 2 or 3 it counts towards the
padding, and once `quadPos + pads` reaches 4 decoding stops successfully,
ignoring any remaining input.  Characters outside the alphabet are skipped
(and reset nothing); a valid data character resets `pads`.  Input exhausted
mid-group (`quadPos ≠ 0`) is the `binascii.Error`
(`Incorrect padding` / `number of data characters cannot be 1 more than a
multiple of 4`). -/
def a2bBase64 (quadPos leftchar pads : Nat) : List Char → Option (List Nat)
  | [] => if quadPos = 0 then some [] else none
  | c :: rest =>
    if c = '=' then
      if 2 ≤ quadPos then
        if 4 ≤ quadPos + pads + 1 then some []
        else a2bBase64 quadPos leftchar (pads + 1) rest
      else a2bBase64 quadPos leftchar pads rest
    else
      match b64val c with
      | none => a2bBase64 quadPos leftchar pads rest
      | some v =>
        match quadPos with
        | 0 => a2bBase64 1 v 0 rest
        | 1 => (a2bBase64 2 (v % 16) 0 rest).map
            (fun tl => (leftchar * 4 + v / 16) :: tl)
        | 2 => (a2bBase64 3 (v % 4) 0 rest).map
            (fun tl => (leftchar * 16 + v / 4) :: tl)
        | _ => (a2bBase64 0 0 0 rest).map
            (fun tl => (leftchar * 64 + v) :: tl)

/-- Embedding of `base64.b64decode` on a `str` argument (default
`validate=False`): the string is first ASCII-encoded
(`_bytes_from_decode_data` raises `ValueError` on any non-ASCII character),
then fed to `binascii.a2b_base64` in non-strict mode. -/
def b64decode (cs : List Char) : Option (List Nat) :=
  if cs.all (fun c => c.toNat < 128) then a2bBase64 0 0 0 cs else none

/-- UTF-8 continuation byte test. -/
def isCont (b : Nat) : Bool := 128 ≤ b && b ≤ 191

/-- Embedding of strict `bytes.decode('utf-8')`: rejects overlong encodings,
surrogates, out-of-range scalars and truncated sequences, as CPython does. -/
def utf8decode : List Nat → Option (List Char)
  | [] => some []
  | b :: rest =>
    if b < 128 then (utf8decode rest).map (fun t => Char.ofNat b :: t)
    else if 194 ≤ b ∧ b ≤ 223 then
      match rest with
      | b2 :: rest2 =>
        if isCont b2 then
          (utf8decode rest2).map (fun t => Char.ofNat ((b - 192) * 64 + (b2 - 128)) :: t)
        else none
      | [] => none
    else if 224 ≤ b ∧ b ≤ 239 then
      match rest with
      | b2 :: b3 :: rest3 =>
        let lo2 := if b = 224 then 160 else 128
        let hi2 := if b = 237 then 159 else 191
        if lo2 ≤ b2 ∧ b2 ≤ hi2 ∧ isCont b3 then
          (utf8decode rest3).map
            (fun t => Char.ofNat ((b - 224) * 4096 + (b2 - 128) * 64 + (b3 - 128)) :: t)
        else none
      | _ => none
    else if 240 ≤ b ∧ b ≤ 244 then
      match rest with
      | b2 :: b3 :: b4 :: rest4 =>
        let lo2 := if b = 240 then 144 else 128
        let hi2 := if b = 244 then 143 else 191
        if lo2 ≤ b2 ∧ b2 ≤ hi2 ∧ isCont b3 ∧ isCont b4 then
          (utf8decode rest4).map
            (fun t => Char.ofNat ((b - 240) * 262144 + (b2 - 128) * 4096 +
                                  (b3 - 128) * 64 + (b4 - 128)) :: t)
        else none
      | _ => none
    else none

/-- Value of a hexadecimal digit, `none` otherwise. -/
def hexVal (c : Char) : Option Nat :=
  if '0' ≤ c ∧ c ≤ '9' then some (c.toNat - 48)
  else if 'a' ≤ c ∧ c ≤ 'f' then some (c.toNat - 97 + 10)
  else if 'A' ≤ c ∧ c ≤ 'F' then some (c.toNat - 65 + 10)
  else none

/-- Replacement character emitted by `errors='replace'` decoding. -/
def replChar : Char := Char.ofNat 65533

/-- Total UTF-8 decoding with `errors='replace'` semantics, following
CPython's maximal-subpart rule: one replacement character consumes the longest
prefix of the ill-formed sequence that is a prefix of some valid sequence —
the lead byte alone when its first continuation byte is outside the range that
lead admits, the lead plus every continuation byte that was valid so far
otherwise (so a sequence truncated by the end of input costs exactly one
replacement character); an outright invalid lead byte consumes itself.  The
fuel argument makes the recursion structural; every step consumes at least one
byte, so the wrapper's fuel of `bs.length` always suffices and the
fuel-exhausted branch is unreachable. -/
def utf8ReplaceAux : Nat → List Nat → List Char
  | _, [] => []
  | 0, bs => bs.map fun _ => replChar
  | fuel + 1, b :: rest =>
    if b < 128 then Char.ofNat b :: utf8ReplaceAux fuel rest
    else if 194 ≤ b ∧ b ≤ 223 then
      match rest with
      | b2 :: rest2 =>
        if isCont b2 then
          Char.ofNat ((b - 192) * 64 + (b2 - 128)) :: utf8ReplaceAux fuel rest2
        else replChar :: utf8ReplaceAux fuel (b2 :: rest2)
      | [] => [replChar]
    else if 224 ≤ b ∧ b ≤ 239 then
      let lo2 := if b = 224 then 160 else 128
      let hi2 := if b = 237 then 159 else 191
      match rest with
      | b2 :: rest2 =>
        if lo2 ≤ b2 ∧ b2 ≤ hi2 then
          match rest2 with
          | b3 :: rest3 =>
            if isCont b3 then
              Char.ofNat ((b - 224) * 4096 + (b2 - 128) * 64 + (b3 - 128)) ::
                utf8ReplaceAux fuel rest3
            else replChar :: utf8ReplaceAux fuel (b3 :: rest3)
          | [] => [replChar]
        else replChar :: utf8ReplaceAux fuel (b2 :: rest2)
      | [] => [replChar]
    else if 240 ≤ b ∧ b ≤ 244 then
      let lo2 := if b = 240 then 144 else 128
      let hi2 := if b = 244 then 143 else 191
      match rest with
      | b2 :: rest2 =>
        if lo2 ≤ b2 ∧ b2 ≤ hi2 then
          match rest2 with
          | b3 :: rest3 =>
            if isCont b3 then
              match rest3 with
              | b4 :: rest4 =>
                if isCont b4 then
                  Char.ofNat ((b - 240) * 262144 + (b2 - 128) * 4096 +
                              (b3 - 128) * 64 + (b4 - 128)) ::
                    utf8ReplaceAux fuel rest4
                else replChar :: utf8ReplaceAux fuel (b4 :: rest4)
              | [] => [replChar]
            else replChar :: utf8ReplaceAux fuel (b3 :: rest3)
          | [] => [replChar]
        else replChar :: utf8ReplaceAux fuel (b2 :: rest2)
      | [] => [replChar]
    else replChar :: utf8ReplaceAux fuel rest

/-- UTF-8 decoding with replacement, at its sufficient fuel. -/
def utf8decodeReplace (bs : List Nat) : List Char := utf8ReplaceAux bs.length bs

/-- Embedding of `urllib.parse.unquote` (encoding `utf-8`, errors `replace`),
which never raises: maximal runs of ASCII characters are percent-decoded to a
byte string (`%XX` with two hex digits becomes one byte, anything else passes
through as its own byte) and UTF-8-decoded with replacement; non-ASCII
characters pass through unchanged.  The accumulator holds the pending byte run
in reverse order.  The fuel argument makes the recursion structural; every
step consumes at least one character, so fuel `cs.length` always suffices. -/
def unquoteAux : Nat → List Char → List Nat → List Char
  | _, [], acc => utf8decodeReplace acc.reverse
  | 0, cs, acc => utf8decodeReplace acc.reverse ++ cs
  | fuel + 1, '%' :: c1 :: c2 :: rest, acc =>
    match hexVal c1, hexVal c2 with
    | some h1, some h2 => unquoteAux fuel rest ((h1 * 16 + h2) :: acc)
    | _, _ => unquoteAux fuel (c1 :: c2 :: rest) (37 :: acc)
  | fuel + 1, c :: rest, acc =>
    if c.toNat < 128 then unquoteAux fuel rest (c.toNat :: acc)
    else utf8decodeReplace acc.reverse ++ c :: unquoteAux fuel rest []

/-- Embedding of `urllib.parse.unquote`. -/
def unquote (cs : List Char) : List Char := unquoteAux cs.length cs []

/-- Embedding of `TarkovMarketDecoder.decode`: drop the noise block occupying
index positions 5 through 9 (Python `encoded[:5] + encoded[10:]`, with slice
clamping), base64-decode, UTF-8-decode, percent-decode.  The Python
`try/except` that converts any stage failure into `None` is rendered by the
`Option` result; a total function cannot raise past the boundary. -/
def decode (encoded : List Char) : Option (List Char) :=
  let processed := encoded.take 5 ++ encoded.drop 10
  match b64decode processed with
  | none => none
  | some decodedBytes =>
    match utf8decode decodedBytes with
    | none => none
    | some urlEncoded => some (unquote urlEncoded)

/-! ### Sync engine (`MarkerSyncService.sync_markers`)

The SQLite `markers` table has primary key `uid`; the sync path runs
`INSERT OR REPLACE INTO markers (uid, map, category, sub_category, name,
name_ko, name_ru, description, description_ko, geometry_x, geometry_y, level,
quest_uid, items_uid, images, updated_at, synced_at) VALUES (...)`.
Under SQLite semantics, on a `uid` conflict the old row is deleted and a fresh
row is inserted; the two columns absent from the column list take their schema
defaults: `is_verified BOOLEAN DEFAULT FALSE` and `verification_distance REAL`
(default `NULL`).  The `marker_images` table is keyed by `marker_uid`; its
surrogate autoincrement `id` is not modelled.  Timestamps (`datetime('now')`)
are modelled by an explicit `now : Nat` clock parameter per sync call.
-/

/-- Planar position carried in a record's `geometry` field. -/
structure Geometry where
  x : ℚ
  y : ℚ
deriving DecidableEq, Repr

/-- One entry of a record's `imgs` list (`img`, `name`, `desc` keys). -/
structure ImgPayload where
  img : Option String
  name : Option String
  desc : Option String
deriving DecidableEq, Repr

/-- Raw marker record as consumed by `sync_markers`.  The defensive
`marker.get(...)` lookups of the source become explicit optional fields;
`name_l10n.get("ko")` etc. are flattened into the `nameKo`-style fields.
An absent or empty `geometry` dict is `none`. -/
structure MarkerPayload where
  uid : String
  category : Option String
  subCategory : Option String
  name : Option String
  nameKo : Option String
  nameRu : Option String
  desc : Option String
  descKo : Option String
  geometry : Option Geometry
  level : Option Int
  questUid : Option String
  itemsUid : List String
  imgs : List ImgPayload
  updated : Option String
deriving DecidableEq, Repr

/-- One row of the `markers` table. -/
structure MarkerRow where
  uid : String
  map : String
  category : Option String
  sub_category : Option String
  name : Option String
  name_ko : Option String
  name_ru : Option String
  description : Option String
  description_ko : Option String
  geometry_x : ℚ
  geometry_y : ℚ
  level : Option Int
  quest_uid : Option String
  items_uid : Option (List String)
  images : Option (List ImgPayload)
  updated_at : Option String
  synced_at : Nat
  is_verified : Bool
  verification_distance : Option ℚ
deriving DecidableEq, Repr

/-- One row of the `marker_images` table (surrogate `id` omitted). -/
structure ImageRow where
  marker_uid : String
  image_url : Option String
  image_name : Option String
  image_description : Option String
  display_order : Nat
deriving DecidableEq, Repr

/-- The portion of the database state the marker sync path touches. -/
structure Store where
  markers : List MarkerRow
  marker_images : List ImageRow
deriving DecidableEq, Repr

/-- Row written by the `INSERT OR REPLACE` for one record: the listed columns
come from the payload (`items_uid`/`images` become `NULL` for falsy lists, as
`json.dumps(x) if x else None` does), `synced_at` is `datetime('now')`, and
the unlisted columns `is_verified` and `verification_distance` take their
schema defaults `FALSE` and `NULL`. -/
def markerRow (m : MarkerPayload) (mapName : String) (g : Geometry) (now : Nat) :
    MarkerRow where
  uid := m.uid
  map := mapName
  category := m.category
  sub_category := m.subCategory
  name := m.name
  name_ko := m.nameKo
  name_ru := m.nameRu
  description := m.desc
  description_ko := m.descKo
  geometry_x := g.x
  geometry_y := g.y
  level := m.level
  quest_uid := m.questUid
  items_uid := if m.itemsUid.isEmpty then none else some m.itemsUid
  images := if m.imgs.isEmpty then none else some m.imgs
  updated_at := m.updated
  synced_at := now
  is_verified := false
  verification_distance := none

/-- SQLite `INSERT OR REPLACE` on the `markers` table: any row with the same
primary key is deleted, then the fresh row is inserted. -/
def upsertMarker (s : Store) (r : MarkerRow) : Store :=
  { s with markers := s.markers.filter (fun x => x.uid != r.uid) ++ [r] }

/-- Rows inserted into `marker_images` for one marker: the payload's image
list in order, `display_order` being the enumeration index. -/
def imageRows (uid : String) (imgs : List ImgPayload) : List ImageRow :=
  imgs.enum.map fun p =>
    { marker_uid := uid
      image_url := p.2.img
      image_name := p.2.name
      image_description := p.2.desc
      display_order := p.1 }

/-- The `DELETE FROM marker_images WHERE marker_uid = ?` followed by the
per-image `INSERT`s. -/
def replaceImages (s : Store) (uid : String) (imgs : List ImgPayload) : Store :=
  { s with marker_images :=
      s.marker_images.filter (fun ir => ir.marker_uid != uid) ++ imageRows uid imgs }

/-- Body of the `for marker in markers` loop: a record with absent/empty
`geometry` is skipped (`continue`) without counting; otherwise the marker row
is upserted and, only when the image list is truthy (non-empty), the image
rows are replaced; the counter then advances. -/
def syncStep (mapName : String) (now : Nat) (acc : Store × Nat) (m : MarkerPayload) :
    Store × Nat :=
  match m.geometry with
  | none => acc
  | some g =>
    let s1 := upsertMarker acc.1 (markerRow m mapName g now)
    let s2 := if m.imgs.isEmpty then s1 else replaceImages s1 m.uid m.imgs
    (s2, acc.2 + 1)

/-- Embedding of `MarkerSyncService.sync_markers`: fold the loop body over the
record list, returning the final store and the returned `synced_count`. -/
def sync_markers (records : List MarkerPayload) (mapName : String) (s : Store)
    (now : Nat) : Store × Nat :=
  records.foldl (syncStep mapName now) (s, 0)

/-! ### Position verifier (`MarkerVerifier.compare_positions`)

The verifier compares the primary ("API") position set against the secondary
("web") set for one map.  Distances: the source computes
`sqrt((ax-wx)**2 + (ay-wy)**2)` and only ever compares such distances with each
other or with the tolerance; the embedding stores the radicand (`dist2`) and
renders `sqrt s <= t` as `0 <= t AND s <= t^2` and `sqrt s < sqrt s'` as
`s < s'`, which are exact for nonnegative radicands. -/

/-- The `MarkerPosition` dataclass of the verifier script. -/
structure MarkerPosition where
  uid : String
  name : String
  x : ℚ
  y : ℚ
  category : String := ""
  sub_category : String := ""
  map_name : String := ""
  level : Option Int := none
deriving DecidableEq, Repr

/-- The `VerificationResult` dataclass (the wall-clock `verified_at` field and
the screenshot path, which `compare_positions` never sets, are omitted).
`distance_sq` holds the square of the dataclass's `distance` field. -/
structure VerificationResult where
  marker_uid : String
  marker_name : String
  map_name : String
  api_x : ℚ
  api_y : ℚ
  web_x : Option ℚ := none
  web_y : Option ℚ := none
  distance_sq : Option ℚ := none
  is_match : Bool := false
  error : Option String := none
deriving DecidableEq, Repr

/-- Squared Euclidean distance between a primary and a secondary position:
the radicand of the source's `sqrt((p.x-w.x)**2 + (p.y-w.y)**2)`. -/
def dist2 (p w : MarkerPosition) : ℚ := (p.x - w.x) ^ 2 + (p.y - w.y) ^ 2

/-- Exact rendering of the source's comparison `sqrt s <= t` for a radicand
`s >= 0`: true iff `0 <= t` and `s <= t^2`. -/
def sqrtLe (s t : ℚ) : Bool := decide (0 ≤ t) && decide (s ≤ t ^ 2)

/-- The `web_lookup = {m.uid: m for m in web_markers if m.uid}` dict plus its
membership test: entries with a falsy (empty) uid are excluded, and for
duplicate uids the last comprehension entry wins. -/
def webLookup (ws : List MarkerPosition) (uid : String) : Option MarkerPosition :=
  (ws.filter fun m => m.uid != "" && m.uid == uid).getLast?

/-- One iteration of the nearest-neighbor scan: the accumulator `none` stands
for the initial `min_distance = inf` / `nearest_web = None` state, which any
first entry beats; afterwards an entry wins only at strictly smaller squared
distance (`if dist < min_distance`), so ties keep the first entry in iteration
order. -/
def nearestStep (p : MarkerPosition) (acc : Option (MarkerPosition × ℚ))
    (w : MarkerPosition) : Option (MarkerPosition × ℚ) :=
  let d := dist2 p w
  match acc with
  | none => some (w, d)
  | some (_, m) => if d < m then some (w, d) else acc

/-- The nearest-neighbor scan over the secondary set.  Returns `none` only for
an empty set. -/
def nearestWeb (p : MarkerPosition) (ws : List MarkerPosition) :
    Option (MarkerPosition × ℚ) :=
  ws.foldl (nearestStep p) none

/-- Loop body of `compare_positions` for one primary entry once the secondary
set is known non-empty: an identity (uid) match records the secondary position
and distance and sets `is_match = distance <= tolerance`; otherwise the
nearest secondary entry is accepted when its distance is at most
`tolerance * 2` (with `is_match = min_distance <= tolerance`), and rejected
with `error = "No matching web marker found"` beyond that radius. -/
def compareOne (tol : ℚ) (ws : List MarkerPosition) (mapName : String)
    (p : MarkerPosition) : VerificationResult :=
  let base : VerificationResult :=
    { marker_uid := p.uid
      marker_name := p.name
      map_name := mapName
      api_x := p.x
      api_y := p.y }
  match webLookup ws p.uid with
  | some w =>
    { base with
        web_x := some w.x
        web_y := some w.y
        distance_sq := some (dist2 p w)
        is_match := sqrtLe (dist2 p w) tol }
  | none =>
    match nearestWeb p ws with
    | some (n, m) =>
      if sqrtLe m (tol * 2) then
        { base with
            web_x := some n.x
            web_y := some n.y
            distance_sq := some m
            is_match := sqrtLe m tol }
      else { base with error := some "No matching web marker found" }
    | none => { base with error := some "No matching web marker found" }

/-- The optional category filter: only the primary set is restricted. -/
def applyCategoryFilter (f : Option String) (api : List MarkerPosition) :
    List MarkerPosition :=
  match f with
  | none => api
  | some c => api.filter fun m => m.category == c

/-- Embedding of `MarkerVerifier.compare_positions` on the primary set for one
map and the secondary set: after category filtering, an empty secondary set
yields one `error = "No web markers available for comparison"` result per
primary entry with no matching attempted; otherwise each primary entry goes
through `compareOne`. -/
def compare_positions (mapName : String) (tol : ℚ) (f : Option String)
    (api ws : List MarkerPosition) : List VerificationResult :=
  let api' := applyCategoryFilter f api
  if ws.isEmpty then
    api'.map fun m =>
      { marker_uid := m.uid
        marker_name := m.name
        map_name := mapName
        api_x := m.x
        api_y := m.y
        error := some "No web markers available for comparison" }
  else
    api'.map (compareOne tol ws mapName)

/-! ### Report aggregation (`_generate_json_report` / `_generate_html_report`)

Python truthiness governs the report counters: a recorded distance of exactly
`0.0` is falsy, as is an empty error string. -/

/-- Truthiness of the optional `distance` field (`0.0` is falsy). -/
def distTruthy : Option ℚ → Bool
  | none => false
  | some d => d != 0

/-- Truthiness of the optional `error` field (an empty string is falsy). -/
def errTruthy : Option String → Bool
  | none => false
  | some e => e != ""

/-- The report's `matched` counter: results with `is_match` true. -/
def matchedCount (rs : List VerificationResult) : Nat :=
  (rs.filter fun r => r.is_match).length

/-- The report's `discrepancies` counter: `not r.is_match and r.distance`. -/
def discrepancyCount (rs : List VerificationResult) : Nat :=
  (rs.filter fun r => !r.is_match && distTruthy r.distance_sq).length

/-- The report's `missing` counter: results with a truthy `error`. -/
def missingCount (rs : List VerificationResult) : Nat :=
  (rs.filter fun r => errTruthy r.error).length

/-- One record of the report's `discrepancy_details` list. -/
structure DiscrepancyDetail where
  uid : String
  name : String
  map : String
  api_x : ℚ
  api_y : ℚ
  web_x : Option ℚ
  web_y : Option ℚ
  distance_sq : Option ℚ
deriving DecidableEq, Repr

/-- Detail record built from one discrepancy result. -/
def toDetail (r : VerificationResult) : DiscrepancyDetail where
  uid := r.marker_uid
  name := r.marker_name
  map := r.map_name
  api_x := r.api_x
  api_y := r.api_y
  web_x := r.web_x
  web_y := r.web_y
  distance_sq := r.distance_sq

/-- Body of the report loop for the detail list: `if result.is_match` counts
as matched, `elif result.distance` (truthy) appends a discrepancy detail,
`else` counts as missing.  Both report generators run this same loop. -/
def detailStep (acc : List DiscrepancyDetail) (r : VerificationResult) :
    List DiscrepancyDetail :=
  if r.is_match then acc
  else if distTruthy r.distance_sq then acc ++ [toDetail r]
  else acc

/-- The JSON report's `discrepancy_details` list: every discrepancy, in result
order, with no cap. -/
def jsonDiscrepancyDetails (rs : List VerificationResult) : List DiscrepancyDetail :=
  rs.foldl detailStep []

/-- The HTML report's rendered detail list: the same accumulated list,
truncated to the first 50 records (`discrepancy_details[:50]`). -/
def htmlDiscrepancyDetails (rs : List VerificationResult) : List DiscrepancyDetail :=
  (rs.foldl detailStep []).take 50

/-! ### Concrete fixtures used by witnesses and counterexamples -/

/-- Sample planar position. -/
def sampleGeom : Geometry := { x := 1, y := 2 }

/-- Sample marker payload with a geometry and no images. -/
def samplePayload : MarkerPayload where
  uid := "m1"
  category := some "Quests"
  subCategory := none
  name := some "Old Azs"
  nameKo := none
  nameRu := none
  desc := none
  descKo := none
  geometry := some sampleGeom
  level := none
  questUid := none
  itemsUid := []
  imgs := []
  updated := some "2025-01-01"

/-- Sample marker payload identical to `samplePayload` but carrying one image. -/
def samplePayloadImgs : MarkerPayload :=
  { samplePayload with imgs := [{ img := some "new.png", name := none, desc := none }] }

/-- Stored marker row for uid `m1` carrying non-default verification state. -/
def verifiedRow : MarkerRow where
  uid := "m1"
  map := "customs"
  category := some "Quests"
  sub_category := none
  name := some "Old Azs"
  name_ko := none
  name_ru := none
  description := none
  description_ko := none
  geometry_x := 1
  geometry_y := 2
  level := none
  quest_uid := none
  items_uid := none
  images := none
  updated_at := some "2025-01-01"
  synced_at := 0
  is_verified := true
  verification_distance := some 3

/-- Store holding `verifiedRow` and no images. -/
def storeWithVerified : Store := { markers := [verifiedRow], marker_images := [] }

/-- Previously stored image row for marker `m1`. -/
def oldImageRow : ImageRow where
  marker_uid := "m1"
  image_url := some "old.png"
  image_name := none
  image_description := none
  display_order := 0

/-- Store holding one previously stored image for marker `m1`. -/
def storeWithImage : Store := { markers := [], marker_images := [oldImageRow] }

/-- A discrepancy-shaped verification result (no match, truthy distance). -/
def discResult : VerificationResult where
  marker_uid := "m2"
  marker_name := "B"
  map_name := "woods"
  api_x := 0
  api_y := 0
  web_x := some 9
  web_y := some 0
  distance_sq := some 81
  is_match := false
  error := none

/-- Primary marker `A` at the origin. -/
def pA : MarkerPosition := { uid := "a", name := "A", x := 0, y := 0, category := "Quests" }

/-- Primary marker `B` at `(10, 10)`. -/
def pB : MarkerPosition := { uid := "b", name := "B", x := 10, y := 10, category := "Loot" }

/-- Primary marker `C` at `(20, 20)`. -/
def pC : MarkerPosition := { uid := "c", name := "C", x := 20, y := 20, category := "Quests" }

/-- Secondary marker identified as `a`, at the origin. -/
def wA : MarkerPosition := { uid := "a", name := "A", x := 0, y := 0 }

/-- Unidentified secondary marker at `(10.5, 10.5)`. -/
def wX : MarkerPosition := { uid := "", name := "", x := 21 / 2, y := 21 / 2 }

/-! ### Helper lemmas -/

/-- Filtering for a key immediately after filtering it away yields nothing. -/
theorem filter_uid_eq_of_ne (l : List MarkerRow) (u : String) :
    (l.filter fun x => x.uid != u).filter (fun x => x.uid == u) = [] := by
  induction l with
  | nil => rfl
  | cons a l ih => cases h : a.uid == u <;> simp [List.filter_cons, bne, h, ih]

/-- Filtering a key away is idempotent. -/
theorem filter_uid_ne_idem (l : List MarkerRow) (u : String) :
    (l.filter fun x => x.uid != u).filter (fun x => x.uid != u) =
      l.filter fun x => x.uid != u := by
  induction l with
  | nil => rfl
  | cons a l ih => cases h : a.uid == u <;> simp [List.filter_cons, bne, h, ih]

/-- Image rows: filtering a key away is idempotent. -/
theorem filter_img_ne_idem (l : List ImageRow) (u : String) :
    (l.filter fun x => x.marker_uid != u).filter (fun x => x.marker_uid != u) =
      l.filter fun x => x.marker_uid != u := by
  induction l with
  | nil => rfl
  | cons a l ih => cases h : a.marker_uid == u <;> simp [List.filter_cons, bne, h, ih]

/-- The freshly inserted image rows all carry the marker's own uid, so
filtering that uid away removes them all. -/
theorem imageRows_filter_ne (u : String) (imgs : List ImgPayload) :
    (imageRows u imgs).filter (fun x => x.marker_uid != u) = [] := by
  simp [imageRows, List.filter_map, Function.comp_def]

/-- Effect of syncing a single record with geometry on the `markers` table:
the old row for that uid (if any) is deleted and the fresh row appended. -/
theorem sync_single_markers (m : MarkerPayload) (mapName : String) (st : Store)
    (t : Nat) (g : Geometry) (hg : m.geometry = some g) :
    (sync_markers [m] mapName st t).1.markers =
      st.markers.filter (fun x => x.uid != m.uid) ++ [markerRow m mapName g t] := by
  simp only [sync_markers, List.foldl_cons, List.foldl_nil, syncStep, hg]
  split <;> simp [upsertMarker, replaceImages, markerRow]

/-- Effect of syncing a single record with geometry and a falsy (empty) image
list on the `marker_images` table: nothing changes. -/
theorem sync_single_images_empty (m : MarkerPayload) (mapName : String)
    (st : Store) (t : Nat) (hi : m.imgs = []) :
    (sync_markers [m] mapName st t).1.marker_images = st.marker_images := by
  simp only [sync_markers, List.foldl_cons, List.foldl_nil, syncStep]
  cases hg : m.geometry <;> simp [hi, upsertMarker]

/-- Effect of syncing a single record with geometry and a non-empty image list
on the `marker_images` table: full replacement for that marker uid. -/
theorem sync_single_images_nonempty (m : MarkerPayload) (mapName : String)
    (st : Store) (t : Nat) (g : Geometry) (hg : m.geometry = some g)
    (hi : m.imgs ≠ []) :
    (sync_markers [m] mapName st t).1.marker_images =
      st.marker_images.filter (fun x => x.marker_uid != m.uid) ++
        imageRows m.uid m.imgs := by
  simp only [sync_markers, List.foldl_cons, List.foldl_nil, syncStep, hg]
  rw [if_neg (by simpa using hi)]
  simp [replaceImages, upsertMarker]

/-- The second component of the sync fold counts exactly the records with a
truthy geometry. -/
theorem sync_foldl_snd (mapName : String) (now : Nat) :
    ∀ (records : List MarkerPayload) (acc : Store × Nat),
      (records.foldl (syncStep mapName now) acc).2 =
        acc.2 + (records.filter fun m => m.geometry.isSome).length := by
  intro records
  induction records with
  | nil => intro acc; simp
  | cons m ms ih =>
    intro acc
    rw [List.foldl_cons, ih]
    cases hg : m.geometry with
    | none => simp [List.filter_cons, hg, syncStep]
    | some g =>
      simp [List.filter_cons, hg, syncStep]
      omega

/-- The sync fold ignores records without geometry entirely. -/
theorem sync_foldl_skip (mapName : String) (now : Nat) :
    ∀ (records : List MarkerPayload) (acc : Store × Nat),
      records.foldl (syncStep mapName now) acc =
        (records.filter fun m => m.geometry.isSome).foldl (syncStep mapName now) acc := by
  intro records
  induction records with
  | nil => intro acc; rfl
  | cons m ms ih =>
    intro acc
    cases hg : m.geometry with
    | none =>
      rw [List.foldl_cons, ih]
      simp [List.filter_cons, hg, syncStep]
    | some g =>
      rw [List.foldl_cons, ih]
      simp [List.filter_cons, hg]

/-! ### Claim theorems -/

/-- C7: for every input string, `decode` either returns the percent-decoded
UTF-8 interpretation of the base64 decoding of the input with its characters at
index positions 5 through 9 removed (first 5 characters concatenated with the
remainder from index 10), or, if the base64 or UTF-8 stage fails, returns the
single failure value `none`; being a total function into `Option`, it never
raises past the component boundary (the percent-decoding stage is total). -/
theorem C7_decode_pipeline (encoded : List Char) :
    (b64decode (encoded.take 5 ++ encoded.drop 10) = none → decode encoded = none) ∧
    (∀ bs, b64decode (encoded.take 5 ++ encoded.drop 10) = some bs →
      (utf8decode bs = none → decode encoded = none) ∧
      (∀ t, utf8decode bs = some t → decode encoded = some (unquote t))) := by
  refine ⟨fun hb => ?_, fun bs hb => ⟨fun hu => ?_, fun t hu => ?_⟩⟩
  · simp only [decode, hb]
  · simp only [decode, hb, hu]
  · simp only [decode, hb, hu]

/-- Witness for C7 at the concrete obfuscated input `QSU0Mabcdeg==` (the valid
base64 `QSU0Mg==` of the bytes of `A%42` with the noise block `abcde` inserted
at index 5): decoding succeeds and yields the percent-decoded text `AB`. -/
theorem C7_decode_pipeline_witness :
    decode ['Q', 'S', 'U', '0', 'M', 'a', 'b', 'c', 'd', 'e', 'g', '=', '='] =
      some ['A', 'B'] := by
  have h := (C7_decode_pipeline
      ['Q', 'S', 'U', '0', 'M', 'a', 'b', 'c', 'd', 'e', 'g', '=', '=']).2
      [65, 37, 52, 50] (by decide)
  have h2 := h.2 ['A', '%', '4', '2'] (by decide)
  rw [h2]
  decide

/-- C10: the marker sync silently skips every record whose geometry is absent
or empty (the final state equals that of syncing only the records with
geometry), the returned count equals the number of records actually stored,
that count never exceeds the input length, and an empty record list stores
nothing and returns zero. -/
theorem C10_sync_skips_geometryless (records : List MarkerPayload)
    (mapName : String) (s : Store) (now : Nat) :
    sync_markers records mapName s now =
      sync_markers (records.filter fun m => m.geometry.isSome) mapName s now ∧
    (sync_markers records mapName s now).2 =
      (records.filter fun m => m.geometry.isSome).length ∧
    (sync_markers records mapName s now).2 ≤ records.length ∧
    sync_markers [] mapName s now = (s, 0) := by
  refine ⟨sync_foldl_skip mapName now records (s, 0), ?_, ?_, rfl⟩
  · simpa using sync_foldl_snd mapName now records (s, 0)
  · have h := sync_foldl_snd mapName now records (s, 0)
    have hle := List.length_filter_le (fun m : MarkerPayload => m.geometry.isSome) records
    simp only [sync_markers]
    omega

/-- Updating `synced_at` on rows whose uid was already filtered away changes
nothing. -/
theorem map_update_filter_ne (l : List MarkerRow) (u : String) (t2 : Nat) :
    ((l.filter fun x => x.uid != u).map fun r =>
        if r.uid == u then { r with synced_at := t2 } else r) =
      l.filter fun x => x.uid != u := by
  refine (List.map_congr_left ?_).trans (List.map_id _)
  intro r hr
  have hne : r.uid ≠ u := by simpa using (List.mem_filter.mp hr).2
  simp [hne]

/-- C4: syncing the same marker payload twice is idempotent — the store ends
with exactly one row keyed by the payload's uid, that row's source-derived
fields are the payload's field values with the second `synced_at`, the second
`synced_at` is at least the first, and the second application changes nothing
except `synced_at` (markers are rewritten only in that field; the image table
is unchanged). -/
theorem C4_sync_idempotent (m : MarkerPayload) (mapName : String) (s : Store)
    (t1 t2 : Nat) (g : Geometry) (hg : m.geometry = some g) (ht : t1 ≤ t2) :
    ((sync_markers [m] mapName (sync_markers [m] mapName s t1).1 t2).1.markers.filter
        (fun r => r.uid == m.uid) = [markerRow m mapName g t2]) ∧
    ((sync_markers [m] mapName s t1).1.markers.filter (fun r => r.uid == m.uid) =
        [markerRow m mapName g t1]) ∧
    (markerRow m mapName g t1).synced_at ≤ (markerRow m mapName g t2).synced_at ∧
    ((sync_markers [m] mapName (sync_markers [m] mapName s t1).1 t2).1.markers =
      (sync_markers [m] mapName s t1).1.markers.map
        (fun r => if r.uid == m.uid then { r with synced_at := t2 } else r)) ∧
    ((sync_markers [m] mapName (sync_markers [m] mapName s t1).1 t2).1.marker_images =
      (sync_markers [m] mapName s t1).1.marker_images) := by
  have h1 := sync_single_markers m mapName s t1 g hg
  have h2 := sync_single_markers m mapName (sync_markers [m] mapName s t1).1 t2 g hg
  refine ⟨?_, ?_, ht, ?_, ?_⟩
  · rw [h2, List.filter_append, filter_uid_eq_of_ne]
    simp [markerRow]
  · rw [h1, List.filter_append, filter_uid_eq_of_ne]
    simp [markerRow]
  · rw [h2, h1, List.filter_append, List.map_append, filter_uid_ne_idem,
      map_update_filter_ne]
    simp [markerRow]
  · rcases eq_or_ne m.imgs [] with hi | hi
    · rw [sync_single_images_empty m mapName _ t2 hi]
    · have hA := sync_single_images_nonempty m mapName s t1 g hg hi
      have hB := sync_single_images_nonempty m mapName
        (sync_markers [m] mapName s t1).1 t2 g hg hi
      rw [hB, hA, List.filter_append, filter_img_ne_idem, imageRows_filter_ne]
      simp

/-- Witness for C4: the sample payload synced twice into the sample store at
times 1 then 2. -/
theorem C4_sync_idempotent_witness :
    ((sync_markers [samplePayload] "customs"
        (sync_markers [samplePayload] "customs" storeWithVerified 1).1 2).1.markers.filter
        (fun r => r.uid == samplePayload.uid) =
        [markerRow samplePayload "customs" sampleGeom 2]) ∧
    ((sync_markers [samplePayload] "customs" storeWithVerified 1).1.markers.filter
        (fun r => r.uid == samplePayload.uid) =
        [markerRow samplePayload "customs" sampleGeom 1]) ∧
    (markerRow samplePayload "customs" sampleGeom 1).synced_at ≤
      (markerRow samplePayload "customs" sampleGeom 2).synced_at ∧
    ((sync_markers [samplePayload] "customs"
        (sync_markers [samplePayload] "customs" storeWithVerified 1).1 2).1.markers =
      (sync_markers [samplePayload] "customs" storeWithVerified 1).1.markers.map
        (fun r => if r.uid == samplePayload.uid then { r with synced_at := 2 } else r)) ∧
    ((sync_markers [samplePayload] "customs"
        (sync_markers [samplePayload] "customs" storeWithVerified 1).1 2).1.marker_images =
      (sync_markers [samplePayload] "customs" storeWithVerified 1).1.marker_images) :=
  C4_sync_idempotent samplePayload "customs" storeWithVerified 1 2 sampleGeom rfl
    (by omega)

/-- Counterexample for C1 as stated: the store holds a row for uid `m1` with
`is_verified = TRUE` and `verification_distance = 3`, yet after re-syncing a
payload with the same uid the stored row has `is_verified = FALSE` and
`verification_distance = NULL` — the `INSERT OR REPLACE` deleted the old row
and the unlisted columns took their schema defaults. -/
theorem C1_resync_resets_counterexample :
    ((sync_markers [samplePayload] "customs" storeWithVerified 1).1.markers.map
        fun r => (r.uid, r.is_verified, r.verification_distance)) =
      [("m1", false, none)] := by
  decide

/-- C1 amended: the marker upsert path always resets the verification fields —
after syncing a payload with geometry, the stored row for that uid has
`is_verified = FALSE` and `verification_distance = NULL`, whatever verification
state was stored before, because `INSERT OR REPLACE` replaces the whole row
and those two columns are absent from its column list. -/
theorem C1_resync_resets_verification (m : MarkerPayload) (mapName : String)
    (s : Store) (now : Nat) (g : Geometry) (hg : m.geometry = some g) :
    (sync_markers [m] mapName s now).1.markers.filter (fun r => r.uid == m.uid) =
      [markerRow m mapName g now] ∧
    (markerRow m mapName g now).is_verified = false ∧
    (markerRow m mapName g now).verification_distance = none := by
  refine ⟨?_, rfl, rfl⟩
  rw [sync_single_markers m mapName s now g hg, List.filter_append,
    filter_uid_eq_of_ne]
  simp [markerRow]

/-- Witness for the amended C1 at the sample payload and the store holding
non-default verification state. -/
theorem C1_resync_resets_verification_witness :
    (sync_markers [samplePayload] "customs" storeWithVerified 1).1.markers.filter
        (fun r => r.uid == samplePayload.uid) =
      [markerRow samplePayload "customs" sampleGeom 1] ∧
    (markerRow samplePayload "customs" sampleGeom 1).is_verified = false ∧
    (markerRow samplePayload "customs" sampleGeom 1).verification_distance = none :=
  C1_resync_resets_verification samplePayload "customs" storeWithVerified 1
    sampleGeom rfl

/-- Counterexample for C6 as stated: marker `m1` has a previously stored image
row, and syncing a payload for `m1` with an empty image list leaves that old
image row in place — the `if marker.get("imgs"):` guard skips the delete for a
falsy image list. -/
theorem C6_empty_imgs_counterexample :
    (sync_markers [samplePayload] "customs" storeWithImage 1).1.marker_images =
      [oldImageRow] := by
  decide

/-- C6 amended: the stored image set is fully replaced only when the payload's
image list is non-empty; syncing a marker with an empty image list leaves all
previously stored image rows for that marker untouched. -/
theorem C6_images_replaced_only_when_nonempty (m : MarkerPayload)
    (mapName : String) (s : Store) (now : Nat) (g : Geometry)
    (hg : m.geometry = some g) :
    (m.imgs = [] →
      (sync_markers [m] mapName s now).1.marker_images = s.marker_images) ∧
    (m.imgs ≠ [] →
      (sync_markers [m] mapName s now).1.marker_images =
        s.marker_images.filter (fun x => x.marker_uid != m.uid) ++
          imageRows m.uid m.imgs) := by
  exact ⟨fun hi => sync_single_images_empty m mapName s now hi,
    fun hi => sync_single_images_nonempty m mapName s now g hg hi⟩

/-- Witness for the amended C6: the empty-list payload leaves the stored image
untouched, while the one-image payload replaces the image set. -/
theorem C6_images_replaced_only_when_nonempty_witness :
    ((sync_markers [samplePayload] "customs" storeWithImage 1).1.marker_images =
      storeWithImage.marker_images) ∧
    ((sync_markers [samplePayloadImgs] "customs" storeWithImage 1).1.marker_images =
      storeWithImage.marker_images.filter
          (fun x => x.marker_uid != samplePayloadImgs.uid) ++
        imageRows samplePayloadImgs.uid samplePayloadImgs.imgs) :=
  ⟨(C6_images_replaced_only_when_nonempty samplePayload "customs" storeWithImage 1
      sampleGeom rfl).1 rfl,
   (C6_images_replaced_only_when_nonempty samplePayloadImgs "customs" storeWithImage 1
      sampleGeom rfl).2 (by decide)⟩

/-- Invariant of the nearest-neighbor fold started from a candidate whose
recorded distance is its true distance: the fold returns a candidate whose
distance is its true distance, never worse than the start, minimal over the
scanned tail, and drawn from the start or the tail. -/
theorem nearestWeb_go (p : MarkerPosition) :
    ∀ (ws : List MarkerPosition) (n0 : MarkerPosition) (d0 : ℚ),
      d0 = dist2 p n0 →
      ∃ n d,
        ws.foldl (nearestStep p) (some (n0, d0)) = some (n, d) ∧
        d = dist2 p n ∧ (n = n0 ∨ n ∈ ws) ∧ d ≤ d0 ∧ ∀ w ∈ ws, d ≤ dist2 p w := by
  intro ws
  induction ws with
  | nil =>
    intro n0 d0 hd0
    exact ⟨n0, d0, rfl, hd0, Or.inl rfl, le_refl _, by simp⟩
  | cons w ws ih =>
    intro n0 d0 hd0
    rw [List.foldl_cons]
    by_cases hlt : dist2 p w < d0
    · rw [show nearestStep p (some (n0, d0)) w = some (w, dist2 p w) by
        simp [nearestStep, hlt]]
      obtain ⟨n, d, heq, hd, hmem, hle, hall⟩ := ih w (dist2 p w) rfl
      refine ⟨n, d, heq, hd, ?_, le_trans hle (le_of_lt hlt), ?_⟩
      · rcases hmem with h | h
        · exact Or.inr (by simp [h])
        · exact Or.inr (List.mem_cons_of_mem _ h)
      · intro w' hw'
        rcases List.mem_cons.mp hw' with h | h
        · rw [h]; exact hle
        · exact hall w' h
    · rw [show nearestStep p (some (n0, d0)) w = some (n0, d0) by
        simp [nearestStep, hlt]]
      obtain ⟨n, d, heq, hd, hmem, hle, hall⟩ := ih n0 d0 hd0
      refine ⟨n, d, heq, hd, ?_, hle, ?_⟩
      · rcases hmem with h | h
        · exact Or.inl h
        · exact Or.inr (List.mem_cons_of_mem _ h)
      · intro w' hw'
        rcases List.mem_cons.mp hw' with h | h
        · rw [h]; exact le_trans hle (not_lt.mp hlt)
        · exact hall w' h

/-- Specification of the nearest-neighbor scan: it returns an element of the
secondary set, paired with its own squared distance, minimal over the whole
set. -/
theorem nearestWeb_spec (p : MarkerPosition) (ws : List MarkerPosition)
    (n : MarkerPosition) (d : ℚ) (h : nearestWeb p ws = some (n, d)) :
    n ∈ ws ∧ d = dist2 p n ∧ ∀ w ∈ ws, d ≤ dist2 p w := by
  cases ws with
  | nil => simp [nearestWeb] at h
  | cons w ws' =>
    have h0 : nearestWeb p (w :: ws') =
        ws'.foldl (nearestStep p) (some (w, dist2 p w)) := by
      simp [nearestWeb, List.foldl_cons, nearestStep]
    obtain ⟨n', d', heq, hd, hmem, hle0, hall⟩ := nearestWeb_go p ws' w (dist2 p w) rfl
    rw [h0, heq] at h
    simp only [Option.some.injEq, Prod.mk.injEq] at h
    obtain ⟨hn, hdd⟩ := h
    subst hn
    subst hdd
    refine ⟨?_, hd, ?_⟩
    · rcases hmem with hh | hh
      · rw [hh]; exact List.mem_cons_self w ws'
      · exact List.mem_cons_of_mem _ hh
    · intro w' hw'
      rcases List.mem_cons.mp hw' with hh | hh
      · rw [hh]; exact hle0
      · exact hall w' hh

/-- A non-empty secondary set always yields a nearest candidate. -/
theorem nearestWeb_isSome (p : MarkerPosition) (w : MarkerPosition)
    (ws' : List MarkerPosition) :
    ∃ n d, nearestWeb p (w :: ws') = some (n, d) := by
  have h0 : nearestWeb p (w :: ws') =
      ws'.foldl (nearestStep p) (some (w, dist2 p w)) := by
    simp [nearestWeb, List.foldl_cons, nearestStep]
  obtain ⟨n, d, heq, -, -, -, -⟩ := nearestWeb_go p ws' w (dist2 p w) rfl
  exact ⟨n, d, h0.trans heq⟩

/-- Shape of `compareOne` on an identity (uid) match. -/
theorem compareOne_uid_match (tol : ℚ) (ws : List MarkerPosition)
    (mapName : String) (p w : MarkerPosition)
    (hw : webLookup ws p.uid = some w) :
    compareOne tol ws mapName p =
      { marker_uid := p.uid, marker_name := p.name, map_name := mapName,
        api_x := p.x, api_y := p.y, web_x := some w.x, web_y := some w.y,
        distance_sq := some (dist2 p w), is_match := sqrtLe (dist2 p w) tol,
        error := none } := by
  simp [compareOne, hw]

/-- Shape of `compareOne` on the nearest-neighbor fallback, in both the
accepted and the rejected branch. -/
theorem compareOne_fallback (tol : ℚ) (ws : List MarkerPosition)
    (mapName : String) (p n : MarkerPosition) (d : ℚ)
    (hlk : webLookup ws p.uid = none) (hn : nearestWeb p ws = some (n, d)) :
    (sqrtLe d (tol * 2) = true →
      compareOne tol ws mapName p =
        { marker_uid := p.uid, marker_name := p.name, map_name := mapName,
          api_x := p.x, api_y := p.y, web_x := some n.x, web_y := some n.y,
          distance_sq := some d, is_match := sqrtLe d tol, error := none }) ∧
    (sqrtLe d (tol * 2) = false →
      compareOne tol ws mapName p =
        { marker_uid := p.uid, marker_name := p.name, map_name := mapName,
          api_x := p.x, api_y := p.y, web_x := none, web_y := none,
          distance_sq := none, is_match := false,
          error := some "No matching web marker found" }) := by
  constructor <;> intro hc <;> simp [compareOne, hlk, hn, hc]

/-- C3: for a primary entry with an identity (uid) match in the secondary set,
the secondary position and the (squared) Euclidean distance are recorded
regardless of outcome and `is_match` is the inclusive comparison of the
distance against the tolerance: it holds exactly when `dist² ≤ tolerance²`
(that is, distance ≤ tolerance), so identical positions give squared distance
0 and a match, squared distance exactly `tolerance²` still matches, and any
strictly larger squared distance does not. -/
theorem C3_identity_match_inclusive (tol : ℚ) (ws : List MarkerPosition)
    (mapName : String) (p w : MarkerPosition)
    (hw : webLookup ws p.uid = some w) (htol : 0 ≤ tol) :
    compareOne tol ws mapName p =
      { marker_uid := p.uid, marker_name := p.name, map_name := mapName,
        api_x := p.x, api_y := p.y, web_x := some w.x, web_y := some w.y,
        distance_sq := some (dist2 p w), is_match := sqrtLe (dist2 p w) tol,
        error := none } ∧
    (sqrtLe (dist2 p w) tol = true ↔ dist2 p w ≤ tol ^ 2) ∧
    (dist2 p w = 0 → (compareOne tol ws mapName p).is_match = true) ∧
    (dist2 p w = tol ^ 2 → (compareOne tol ws mapName p).is_match = true) ∧
    (tol ^ 2 < dist2 p w → (compareOne tol ws mapName p).is_match = false) := by
  have hmain := compareOne_uid_match tol ws mapName p w hw
  refine ⟨hmain, by simp [sqrtLe, htol], ?_, ?_, ?_⟩
  · intro h0
    rw [hmain]
    simp [sqrtLe, htol, h0, sq_nonneg]
  · intro h0
    rw [hmain]
    simp [sqrtLe, htol, h0]
  · intro h0
    rw [hmain]
    simp [sqrtLe, htol]
    exact h0

/-- Witness for C3: marker `A` at the origin identity-matched by the secondary
entry of the same uid at the origin, with tolerance 1: distance 0 and a match. -/
theorem C3_identity_match_inclusive_witness :
    webLookup [wA, wX] pA.uid = some wA ∧ (0 : ℚ) ≤ 1 ∧
    compareOne 1 [wA, wX] "woods" pA =
      { marker_uid := pA.uid, marker_name := pA.name, map_name := "woods",
        api_x := pA.x, api_y := pA.y, web_x := some wA.x, web_y := some wA.y,
        distance_sq := some (dist2 pA wA), is_match := sqrtLe (dist2 pA wA) 1,
        error := none } ∧
    (compareOne 1 [wA, wX] "woods" pA).is_match = true := by
  have h0 : dist2 pA wA = 0 := by norm_num [dist2, pA, wA]
  exact ⟨by decide, by norm_num,
    (C3_identity_match_inclusive 1 [wA, wX] "woods" pA wA (by decide) (by norm_num)).1,
    (C3_identity_match_inclusive 1 [wA, wX] "woods" pA wA (by decide) (by norm_num)).2.2.1
      h0⟩

/-- C2: for a primary entry with no identity match against a non-empty
secondary set, the fallback selects the secondary entry at minimum distance
(`d` is its own squared distance and is minimal over the set); when the
minimum distance is at most `2 × tolerance` (inclusive, i.e.
`d ≤ (tol * 2)²`), the secondary position and distance are recorded with
`is_match = (min distance ≤ tolerance)`; beyond that radius the result has no
secondary position, no distance, and the error
`"No matching web marker found"`. -/
theorem C2_nearest_fallback (tol : ℚ) (ws : List MarkerPosition)
    (mapName : String) (p n : MarkerPosition) (d : ℚ) (htol : 0 ≤ tol)
    (hlk : webLookup ws p.uid = none) (hn : nearestWeb p ws = some (n, d)) :
    (n ∈ ws ∧ d = dist2 p n ∧ ∀ w ∈ ws, d ≤ dist2 p w) ∧
    (sqrtLe d tol = true ↔ d ≤ tol ^ 2) ∧
    (d ≤ (tol * 2) ^ 2 →
      compareOne tol ws mapName p =
        { marker_uid := p.uid, marker_name := p.name, map_name := mapName,
          api_x := p.x, api_y := p.y, web_x := some n.x, web_y := some n.y,
          distance_sq := some d, is_match := sqrtLe d tol, error := none }) ∧
    ((tol * 2) ^ 2 < d →
      compareOne tol ws mapName p =
        { marker_uid := p.uid, marker_name := p.name, map_name := mapName,
          api_x := p.x, api_y := p.y, web_x := none, web_y := none,
          distance_sq := none, is_match := false,
          error := some "No matching web marker found" }) := by
  have hfb := compareOne_fallback tol ws mapName p n d hlk hn
  have htol2 : (0 : ℚ) ≤ tol * 2 := by linarith
  refine ⟨nearestWeb_spec p ws n d hn, by simp [sqrtLe, htol], ?_, ?_⟩
  · intro hd
    exact hfb.1 (by simp [sqrtLe, htol2, hd])
  · intro hd
    refine hfb.2 ?_
    simp [sqrtLe]
    intro
    exact hd

/-- Witness for C2: marker `B` at `(10,10)` with no identity match falls back
to the unidentified secondary entry at `(10.5, 10.5)`, squared distance `1/2`,
within the doubled radius for tolerance 1 and matching. -/
theorem C2_nearest_fallback_witness :
    webLookup [wA, wX] pB.uid = none ∧
    nearestWeb pB [wA, wX] = some (wX, 1 / 2) ∧
    compareOne 1 [wA, wX] "woods" pB =
      { marker_uid := pB.uid, marker_name := pB.name, map_name := "woods",
        api_x := pB.x, api_y := pB.y, web_x := some wX.x, web_y := some wX.y,
        distance_sq := some (1 / 2), is_match := sqrtLe (1 / 2) 1,
        error := none } ∧
    sqrtLe (1 / 2) 1 = true := by
  have hlk : webLookup [wA, wX] pB.uid = none := by decide
  have hn : nearestWeb pB [wA, wX] = some (wX, 1 / 2) := by
    simp [nearestWeb, nearestStep, dist2, pB, wA, wX]
    norm_num
  refine ⟨hlk, hn, ?_, by norm_num [sqrtLe]⟩
  exact (C2_nearest_fallback 1 [wA, wX] "woods" pB wX (1 / 2) (by norm_num)
    hlk hn).2.2.1 (by norm_num)

/-- C8: when the secondary set for the map is empty, `compare_positions` emits
for each considered primary entry a result with no secondary position, no
distance, `is_match = false` and the error
`"No web markers available for comparison"`, without attempting any matching,
and the aggregate matched count is 0. -/
theorem C8_empty_secondary (mapName : String) (tol : ℚ) (f : Option String)
    (api : List MarkerPosition) :
    compare_positions mapName tol f api [] =
      (applyCategoryFilter f api).map (fun m =>
        { marker_uid := m.uid, marker_name := m.name, map_name := mapName,
          api_x := m.x, api_y := m.y, web_x := none, web_y := none,
          distance_sq := none, is_match := false,
          error := some "No web markers available for comparison" }) ∧
    matchedCount (compare_positions mapName tol f api []) = 0 := by
  constructor
  · rfl
  · simp [compare_positions, matchedCount, List.filter_map, Function.comp]

/-- Three mutually exclusive, jointly exhaustive boolean tests split a list's
length into the three filter counts. -/
theorem length_filter_partition {α : Type} (p q s : α → Bool) (l : List α)
    (h : ∀ a ∈ l, (p a = true ∧ q a = false ∧ s a = false) ∨
                  (p a = false ∧ q a = true ∧ s a = false) ∨
                  (p a = false ∧ q a = false ∧ s a = true)) :
    (l.filter p).length + (l.filter q).length + (l.filter s).length = l.length := by
  induction l with
  | nil => simp
  | cons a l ih =>
    have ha := h a (List.mem_cons_self a l)
    have hl := ih fun a' ha' => h a' (List.mem_cons_of_mem _ ha')
    rcases ha with ⟨h1, h2, h3⟩ | ⟨h1, h2, h3⟩ | ⟨h1, h2, h3⟩
    · simp [List.filter_cons, h1, h2, h3]
      omega
    · simp [List.filter_cons, h1, h2, h3]
      omega
    · simp [List.filter_cons, h1, h2, h3]
      omega

/-- Every result produced by `compare_positions` under a nonnegative tolerance
falls into exactly one of the three report categories: matched (`is_match`),
discrepancy (`not is_match` with a truthy distance), or missing (truthy
`error`). -/
theorem compare_result_shape (mapName : String) (tol : ℚ) (f : Option String)
    (api ws : List MarkerPosition) (htol : 0 ≤ tol) :
    ∀ r ∈ compare_positions mapName tol f api ws,
      (r.is_match = true ∧ (!r.is_match && distTruthy r.distance_sq) = false ∧
        errTruthy r.error = false) ∨
      (r.is_match = false ∧ (!r.is_match && distTruthy r.distance_sq) = true ∧
        errTruthy r.error = false) ∨
      (r.is_match = false ∧ (!r.is_match && distTruthy r.distance_sq) = false ∧
        errTruthy r.error = true) := by
  intro r hr
  cases ws with
  | nil =>
    simp [compare_positions] at hr
    obtain ⟨m, hm, rfl⟩ := hr
    right; right
    simp [distTruthy, errTruthy]
  | cons w ws' =>
    simp [compare_positions] at hr
    obtain ⟨m, hm, rfl⟩ := hr
    cases hlk : webLookup (w :: ws') m.uid with
    | some wm =>
      rw [compareOne_uid_match tol _ mapName m wm hlk]
      cases hsl : sqrtLe (dist2 m wm) tol with
      | true => left; simp [hsl, errTruthy]
      | false =>
        right; left
        have hgt : tol ^ 2 < dist2 m wm := by
          simp [sqrtLe, htol] at hsl
          exact hsl
        have hne0 : dist2 m wm ≠ 0 :=
          ne_of_gt (lt_of_le_of_lt (sq_nonneg tol) hgt)
        simp [hsl, distTruthy, errTruthy, hne0]
    | none =>
      obtain ⟨n, d, hn⟩ := nearestWeb_isSome m w ws'
      have hfb := compareOne_fallback tol (w :: ws') mapName m n d hlk hn
      cases hacc : sqrtLe d (tol * 2) with
      | true =>
        rw [hfb.1 hacc]
        cases hsl : sqrtLe d tol with
        | true => left; simp [hsl, errTruthy]
        | false =>
          right; left
          have hgt : tol ^ 2 < d := by
            simp [sqrtLe, htol] at hsl
            exact hsl
          have hne0 : d ≠ 0 := ne_of_gt (lt_of_le_of_lt (sq_nonneg tol) hgt)
          simp [hsl, distTruthy, errTruthy, hne0]
      | false =>
        rw [hfb.2 hacc]
        right; right
        simp [distTruthy, errTruthy]

/-- C5: over the results `compare_positions` produces for the considered
primary entries (with a nonnegative tolerance), the report categories
`matched` (`is_match` true), `discrepancies` (`is_match` false with a recorded
truthy distance) and `missing` (truthy `error`) classify each result into
exactly one category, and their counts sum to the number of results. -/
theorem C5_report_counts_partition (mapName : String) (tol : ℚ) (f : Option String)
    (api ws : List MarkerPosition) (htol : 0 ≤ tol) :
    (∀ r ∈ compare_positions mapName tol f api ws,
      (r.is_match = true ∧ (!r.is_match && distTruthy r.distance_sq) = false ∧
        errTruthy r.error = false) ∨
      (r.is_match = false ∧ (!r.is_match && distTruthy r.distance_sq) = true ∧
        errTruthy r.error = false) ∨
      (r.is_match = false ∧ (!r.is_match && distTruthy r.distance_sq) = false ∧
        errTruthy r.error = true)) ∧
    matchedCount (compare_positions mapName tol f api ws) +
      discrepancyCount (compare_positions mapName tol f api ws) +
      missingCount (compare_positions mapName tol f api ws) =
      (compare_positions mapName tol f api ws).length := by
  refine ⟨compare_result_shape mapName tol f api ws htol, ?_⟩
  simp only [matchedCount, discrepancyCount, missingCount]
  exact length_filter_partition _ _ _ _ (compare_result_shape mapName tol f api ws htol)

/-- Witness for C5 on the end-to-end scenario: three primary markers against
the two secondary entries, tolerance 1. -/
theorem C5_report_counts_partition_witness :
    (0 : ℚ) ≤ 1 ∧
    matchedCount (compare_positions "woods" 1 none [pA, pB, pC] [wA, wX]) +
      discrepancyCount (compare_positions "woods" 1 none [pA, pB, pC] [wA, wX]) +
      missingCount (compare_positions "woods" 1 none [pA, pB, pC] [wA, wX]) =
      (compare_positions "woods" 1 none [pA, pB, pC] [wA, wX]).length :=
  ⟨by norm_num,
   (C5_report_counts_partition "woods" 1 none [pA, pB, pC] [wA, wX] (by norm_num)).2⟩

/-- The report loop accumulates exactly one detail record per discrepancy
result, in order. -/
theorem detailFold_eq (rs : List VerificationResult) :
    ∀ acc, rs.foldl detailStep acc =
      acc ++ (rs.filter fun r => !r.is_match && distTruthy r.distance_sq).map toDetail := by
  induction rs with
  | nil => intro acc; simp
  | cons r rs ih =>
    intro acc
    rw [List.foldl_cons, ih]
    cases h1 : r.is_match with
    | true => simp [detailStep, h1, List.filter_cons]
    | false =>
      cases h2 : distTruthy r.distance_sq with
      | true => simp [detailStep, h1, h2, List.filter_cons]
      | false => simp [detailStep, h1, h2, List.filter_cons]

/-- Counterexample for C9 as stated: with 51 discrepancy results the JSON
report's `discrepancy_details` list has 51 records — it is not capped at any
fixed maximum (in particular not at the HTML report's cap of 50). -/
theorem C9_json_details_uncapped_counterexample :
    (jsonDiscrepancyDetails (List.replicate 51 discResult)).length = 51 := by
  have hp : ∀ r ∈ List.replicate 51 discResult,
      (!r.is_match && distTruthy r.distance_sq) = true := by
    intro r hr
    rw [List.eq_of_mem_replicate hr]
    norm_num [discResult, distTruthy]
  have h2 : jsonDiscrepancyDetails (List.replicate 51 discResult) =
      ((List.replicate 51 discResult).filter
          fun r => !r.is_match && distTruthy r.distance_sq).map toDetail := by
    simpa using detailFold_eq (List.replicate 51 discResult) []
  rw [h2, List.filter_eq_self.mpr hp]
  simp

/-- C9 amended: the detail list contains one record per discrepancy result
only (JSON report, in order, with no cap — its length equals the number of
discrepancies), and only the HTML report's rendered list is capped, at the
fixed maximum of 50 records. -/
theorem C9_details_discrepancies_only_html_capped (rs : List VerificationResult) :
    jsonDiscrepancyDetails rs =
      (rs.filter fun r => !r.is_match && distTruthy r.distance_sq).map toDetail ∧
    htmlDiscrepancyDetails rs = (jsonDiscrepancyDetails rs).take 50 ∧
    (htmlDiscrepancyDetails rs).length ≤ 50 ∧
    (jsonDiscrepancyDetails rs).length =
      (rs.filter fun r => !r.is_match && distTruthy r.distance_sq).length := by
  have h : jsonDiscrepancyDetails rs =
      (rs.filter fun r => !r.is_match && distTruthy r.distance_sq).map toDetail := by
    simpa using detailFold_eq rs []
  refine ⟨h, rfl, ?_, by rw [h, List.length_map]⟩
  exact List.length_take_le 50 (rs.foldl detailStep [])
